import Mathlib

/-!
Verification of the lockss-turtles build/deploy engine against its design
specification.  The Python sources are shallowly embedded: pure helper
functions become Lean functions on `String` or `List Char`, the stateful
builder latch and RCS deployment become explicit state passing, and code
paths that raise exceptions return `Option`/`Except` values.  Strings that
Python manipulates character by character (`str.replace` with single
characters, slicing) are modelled on `List Char`; command lines are lists of
argument strings, as in `subprocess.run`.
-/

namespace Turtles

/-! ## Descriptor resolver: identifier and resource path conversion

Embeds `Plugin.id_to_file`, `Plugin.file_to_id` and `Plugin.id_to_dir` from
`turtles.py`.  Python `s.replace(a, b)` for single characters `a`, `b` maps
every occurrence of `a` to `b`, which on the character list of `s` is a
`List.map`.  Python `s[:-4]` keeps all but the last four characters.
-/

/-- Model of Python single-character `str.replace`: map each character equal
to `a` to `b`. -/
def pyReplaceChar (a b : Char) (s : List Char) : List Char :=
  s.map (fun c => if c = a then b else c)

/-- Embeds `Plugin.id_to_file` (turtles.py line 104): replace each dot by the
path separator and append the fixed suffix `.xml`. -/
def Plugin.id_to_file (plugid : List Char) : List Char :=
  pyReplaceChar '.' '/' plugid ++ ".xml".data

/-- Embeds `Plugin.file_to_id` (turtles.py line 86): replace each path
separator by a dot and drop the last four characters (the `.xml` suffix). -/
def Plugin.file_to_id (filepath : List Char) : List Char :=
  (pyReplaceChar '/' '.' filepath).take ((pyReplaceChar '/' '.' filepath).length - 4)

/-- Splits a character list at dots, accumulator-style; each finished
component is emitted in order.  Used to model `pathlib.Path` components of
`Plugin.id_to_file`. -/
def splitOnDotAux : List Char → List Char → List (List Char)
  | acc, [] => [acc.reverse]
  | acc, c :: rest =>
      if c = '.' then acc.reverse :: splitOnDotAux [] rest
      else splitOnDotAux (c :: acc) rest

/-- Dot components of an identifier, as `plugid.split('.')` in Python. -/
def splitOnDot (s : List Char) : List (List Char) :=
  splitOnDotAux [] s

/-- Embeds `Plugin.id_to_dir` (turtles.py line 100): the parent directory of
the resource path of an identifier.  For a dotted identifier (no `/`
characters), `Path(id.replace('.', '/') + '.xml').parent` is the path whose
components are all dot components of the identifier except the last; a path
is modelled by its component list. -/
def Plugin.id_to_dir (plugid : String) : List (List Char) :=
  (splitOnDot plugid.data).dropLast

/-! ## Orchestrator: first-match build (`Turtles._build_one_plugin`)

The orchestrator holds plugin sets in load order; a set's `has_plugin` is a
filesystem membership test, modelled as an abstract boolean predicate, and
the actual build is modelled as an abstract function from set identifier and
plugin identifier to a result. -/

/-- Model of a loaded plugin set as seen by `Turtles._build_one_plugin`:
its identifier and its `has_plugin` membership test. -/
structure PluginSetM where
  id : String
  hasP : String → Bool

/-- Embeds the loop of `Turtles._build_one_plugin` (app.py lines 304-311):
scan the loaded plugin sets in order; the first whose `has_plugin` answers
true is asked to build, and its result is returned; if none matches, the
not-found exception is raised (`none`). -/
def build_one_plugin (buildFn : String → String → String) :
    List PluginSetM → String → Option (String × String)
  | [], _ => none
  | s :: rest, plugin_id =>
      if s.hasP plugin_id then some (s.id, buildFn s.id plugin_id)
      else build_one_plugin buildFn rest plugin_id

/-! ## Plugin registry and deploy fan-out

Embeds `PluginRegistry.get_layer`, `PluginRegistry.has_plugin`
(plugin_registry.py lines 84-97) and the loop of
`Turtles._deploy_one_plugin` (app.py lines 338-353). -/

/-- Model of one named layer of a plugin registry. -/
structure PluginRegistryLayerM where
  id : String

/-- Model of one loaded plugin registry: identifier, declared plugin
identifiers, and its ordered list of layers. -/
structure PluginRegistryM where
  id : String
  pluginIdentifiers : List String
  layers : List PluginRegistryLayerM

/-- Embeds `PluginRegistry.has_plugin`: membership of the identifier in the
registry's declared `plugin-identifiers` list. -/
def PluginRegistryM.has_plugin (r : PluginRegistryM) (plugin_id : String) : Bool :=
  r.pluginIdentifiers.contains plugin_id

/-- Embeds `PluginRegistry.get_layer` (plugin_registry.py lines 84-88):
return the first layer whose id matches, else `None`. -/
def PluginRegistryM.get_layer (r : PluginRegistryM) (layer_id : String) :
    Option PluginRegistryLayerM :=
  r.layers.find? (fun layer => layer.id == layer_id)

/-- Result entry appended by `Turtles._deploy_one_plugin` for one registry
and layer: registry id, layer id, and the (possibly absent) deployed path
returned by `layer.deploy_plugin`. -/
structure DeployEntry where
  registryId : String
  layerId : String
  dstPath : Option String
deriving DecidableEq

/-- Embeds `Turtles._deploy_one_plugin` (app.py lines 338-353): for every
loaded registry declaring the plugin, for every requested layer id the
registry defines, perform the deployment and append an entry; if the final
list is empty, the hard error is raised (`none`).  The per-layer deployment
outcome is abstracted as `deployFn registryId layerId`. -/
def deploy_one_plugin (deployFn : String → String → Option String)
    (registries : List PluginRegistryM) (plugin_id : String)
    (layer_ids : List String) : Option (List DeployEntry) :=
  let ret := registries.foldl (fun acc r =>
    if r.has_plugin plugin_id then
      layer_ids.foldl (fun acc2 layer_id =>
        match r.get_layer layer_id with
        | none => acc2
        | some layer => acc2 ++ [⟨r.id, layer.id, deployFn r.id layer.id⟩]) acc
    else acc) []
  if ret.length = 0 then none else some ret

/-- Entries contributed by one requested layer id on one registry: none when
the registry does not define the layer, one when it does.  Characterizes the
inner loop of `Turtles._deploy_one_plugin`. -/
def layerEntry (deployFn : String → String → Option String)
    (r : PluginRegistryM) (layer_id : String) : List DeployEntry :=
  match r.get_layer layer_id with
  | none => []
  | some layer => [⟨r.id, layer.id, deployFn r.id layer.id⟩]

/-- Entries contributed by one loaded registry: none at all when it does not
declare the plugin, else one per requested layer it defines, in requested
order.  Characterizes the outer loop of `Turtles._deploy_one_plugin`. -/
def registryEntries (deployFn : String → String → Option String)
    (r : PluginRegistryM) (plugin_id : String) (layer_ids : List String) :
    List DeployEntry :=
  if r.has_plugin plugin_id then
    (layer_ids.map (layerEntry deployFn r)).flatten
  else []

/-! ## Ant build resolution (`AntPluginSet._little_build`)

Embeds the directory-collection loop of `AntPluginSet._little_build`
(plugin_set.py lines 162-177).  A plugin descriptor is abstracted to the two
fields the loop reads: its auxiliary packages (`get_aux_packages`) and its
parent identifier (`get_parent_identifier`).  `make_plugin` is modelled as a
lookup in an environment; a failed lookup is the exception `make_plugin`
would raise.  The `while` loop has no structural bound in the source, so it
is embedded with explicit fuel; exhausting the fuel models divergence. -/

/-- Descriptor fields read by the Ant directory-collection loop. -/
structure PluginDesc where
  auxPackages : List String
  parentIdentifier : Option String
deriving DecidableEq

/-- Environment resolving a plugin identifier to its descriptor, as
`make_plugin` does from the source tree. -/
abbrev PluginEnv := String → Option PluginDesc

/-- Outcome of running the embedded loop with fuel: it ran out of fuel
(models divergence), raised (a `make_plugin` failure), or finished. -/
inductive LoopResult (α : Type) where
  | outOfFuel
  | exn
  | ok (val : α)
deriving DecidableEq

/-- Embeds `if cur_dir not in dirs: dirs.append(cur_dir)`: append the
directory only if it is not already present. -/
def addIfAbsent (dirs : List (List (List Char))) (d : List (List Char)) :
    List (List (List Char)) :=
  if d ∈ dirs then dirs else dirs ++ [d]

/-- Synthetic directory for an auxiliary package (plugin_set.py line 174):
the directory of the fake identifier `aux_package + ".FAKEPlugin"`. -/
def auxDir (aux_package : String) : List (List Char) :=
  Plugin.id_to_dir (aux_package ++ ".FAKEPlugin")

/-- Embeds the inner `for aux_package in cur_plugin.get_aux_packages()` loop
(plugin_set.py lines 173-176). -/
def addAuxDirs (dirs : List (List (List Char))) (auxPackages : List String) :
    List (List (List Char)) :=
  auxPackages.foldl (fun ds a => addIfAbsent ds (auxDir a)) dirs

/-- Embeds the `while cur_id is not None` loop of `AntPluginSet._little_build`
(plugin_set.py lines 167-177), with fuel: resolve the current descriptor,
record the current directory if absent, record each auxiliary directory if
absent, then follow the parent identifier. -/
def little_build_loop (env : PluginEnv) :
    Nat → Option String → List (List (List Char)) →
    LoopResult (List (List (List Char)))
  | _, none, dirs => .ok dirs
  | 0, some _, _ => .outOfFuel
  | fuel + 1, some cur_id, dirs =>
      match env cur_id with
      | none => .exn
      | some cur_plugin =>
          little_build_loop env fuel cur_plugin.parentIdentifier
            (addAuxDirs (addIfAbsent dirs (Plugin.id_to_dir cur_id))
              cur_plugin.auxPackages)

/-- Directory list computed by `AntPluginSet._little_build` for the `-d`
arguments of the packaging invocation, starting from the target
identifier. -/
def little_build_dirs (env : PluginEnv) (fuel : Nat) (plugin_id : String) :
    LoopResult (List (List (List Char))) :=
  little_build_loop env fuel (some plugin_id) []

/-- Ancestor chain of an identifier in an environment as the loop walks it:
the list pairs each visited identifier with its resolved descriptor,
starting at the target and ending at the first descriptor whose parent
reference is empty.  Existence of such a finite list is exactly the
finiteness and acyclicity precondition of the loop. -/
inductive AncestorChain (env : PluginEnv) : String → List (String × PluginDesc) → Prop
  | last {i : String} {p : PluginDesc} :
      env i = some p → p.parentIdentifier = none → AncestorChain env i [(i, p)]
  | cons {i j : String} {p : PluginDesc} {rest : List (String × PluginDesc)} :
      env i = some p → p.parentIdentifier = some j →
      AncestorChain env j rest → AncestorChain env i ((i, p) :: rest)

/-- Directories in first-discovery order, with repetitions, along a chain:
for each visited identifier its own directory first, then one synthetic
directory per auxiliary package it declares. -/
def discoveryDirs (links : List (String × PluginDesc)) : List (List (List Char)) :=
  (links.map (fun ip => Plugin.id_to_dir ip.1 :: ip.2.auxPackages.map auxDir)).flatten

/-- Total number of auxiliary packages declared along a chain. -/
def totalAuxPackages (links : List (String × PluginDesc)) : Nat :=
  (links.map (fun ip => ip.2.auxPackages.length)).sum

/-- Folding `addIfAbsent` over a list, as the loop does overall. -/
def appendDedup (dirs : List (List (List Char))) (ds : List (List (List Char))) :
    List (List (List Char)) :=
  ds.foldl addIfAbsent dirs

/-- Deduplication keeping the first occurrence of each element, in order:
the result of the loop on the raw first-discovery list. -/
def dedupFirst (ds : List (List (List Char))) : List (List (List Char)) :=
  appendDedup [] ds

/-- Concrete two-plugin environment used to exercise the loop: the target
declares one auxiliary package and a parent, the parent declares nothing. -/
def exampleEnv : PluginEnv := fun s =>
  if s = "org.example.MyPlugin" then
    some ⟨["org.example.util"], some "org.example.BasePlugin"⟩
  else if s = "org.example.BasePlugin" then
    some ⟨[], none⟩
  else none

/-- Concrete ancestor chain of `org.example.MyPlugin` in `exampleEnv`. -/
def exampleChain : List (String × PluginDesc) :=
  [("org.example.MyPlugin", ⟨["org.example.util"], some "org.example.BasePlugin"⟩),
   ("org.example.BasePlugin", ⟨[], none⟩)]

/-! ## Credential redaction (`AntPluginSet._sanitize`, `MavenPluginSet._sanitize`)

Embeds the construction of the external signing command lines and the
sanitizers applied to them when the subprocess exits non-zero
(plugin_set.py lines 189-213 and 258-288).  A command line is the list of
argument strings handed to `subprocess.run`; the reported command line is
the space-joined quotation of the sanitized list, so an argument string
appears in the report exactly when it survives in the sanitized list. -/

/-- Embeds the `signplugin` command construction (plugin_set.py lines
189-194). -/
def signplugin_cmd (jar_path keystore_alias keystore_path : String)
    (keystore_password : Option String) : List String :=
  ["test/scripts/signplugin", "--jar", jar_path, "--alias", keystore_alias,
   "--keystore", keystore_path] ++
  (match keystore_password with
   | some p => ["--password", p]
   | none => [])

/-- Embeds the loop of `AntPluginSet._sanitize` (plugin_set.py lines
206-213): walk the command with its index; an element whose index exceeds 1
and whose current predecessor equals `--password` is overwritten with the
placeholder.  The predecessor is the possibly already overwritten value, as
the Python loop mutates the list in place. -/
def ant_sanitize_go : Nat → String → List String → List String
  | _, _, [] => []
  | i, prev, c :: rest =>
      if 1 < i ∧ prev = "--password" then
        "<password>" :: ant_sanitize_go (i + 1) "<password>" rest
      else
        c :: ant_sanitize_go (i + 1) c rest

/-- Sanitized command list of `AntPluginSet._sanitize`. -/
def ant_sanitize (cmd : List String) : List String :=
  ant_sanitize_go 0 "" cmd

/-- Model of Python `str.startswith`: the first characters of `s` are
exactly `pre`. -/
def pyStartsWith (s pre : String) : Bool :=
  decide (s.data.take pre.data.length = pre.data)

/-- Embeds the `mvn package` command construction of
`MavenPluginSet._big_build` (plugin_set.py lines 261-264). -/
def maven_build_cmd (keystore_path keystore_alias keystore_password : String) :
    List String :=
  ["mvn", "package",
   "-Dkeystore.file=" ++ keystore_path,
   "-Dkeystore.alias=" ++ keystore_alias,
   "-Dkeystore.password=" ++ keystore_password]

/-- Sanitized command list of `MavenPluginSet._sanitize` (plugin_set.py
lines 281-288): every element starting with `-Dkeystore.password=` is
replaced whole by the redacted form. -/
def maven_sanitize (cmd : List String) : List String :=
  cmd.map (fun c =>
    if pyStartsWith c "-Dkeystore.password=" then "-Dkeystore.password=<password>"
    else c)

/-! ## Destination file naming (`_get_dstfile`)

Embeds `DirectoryPluginRegistryLayer._get_dstfile` (plugin_registry.py
lines 193-194) and `RcsPluginRegistryLayer._get_dstfile` (plugin_registry.py
lines 241-249).  The layout option `file-naming-convention` is absent
(`none`) or a string; an unknown string raises at deploy time, modelled by
`Except.error`. -/

/-- Embeds `DirectoryPluginRegistryLayer._get_dstfile`: always the full
identifier followed by `.jar`. -/
def directory_get_dstfile (plugin_id : String) : String :=
  plugin_id ++ ".jar"

/-- Last dot component of an identifier, as Python
`plugid.split(".")[-1]`. -/
def lastComponent (plugid : String) : String :=
  ⟨(splitOnDot plugid.data).getLastD []⟩

/-- Embeds `RcsPluginRegistryLayer._get_dstfile` (plugin_registry.py lines
241-249): `abbreviated` takes the last dot component, `identifier` or an
unset convention takes the full identifier, and anything else raises the
unknown-convention error. -/
def rcs_get_dstfile (file_naming_convention : Option String) (plugid : String) :
    Except String String :=
  if file_naming_convention = some "abbreviated" then
    .ok (lastComponent plugid ++ ".jar")
  else if file_naming_convention = some "identifier" ∨ file_naming_convention = none then
    .ok (directory_get_dstfile plugid)
  else
    .error "unknown file naming convention in layout options"

/-! ## Revision-controlled deployment (`RcsPluginRegistryLayer._copy_jar`)

Embeds `DirectoryPluginRegistryLayer._copy_jar` (plugin_registry.py lines
182-188) and `RcsPluginRegistryLayer._copy_jar` (plugin_registry.py lines
224-239) as a transition on the destination's filesystem state, producing
the sequence of external commands run, in order.  The relabel branch of the
directory copy depends on the host's SELinux tooling, modelled by a boolean
environment flag.  The `ci -u` check-in creates the RCS version file, and
`cp` creates the destination file, which is how the state advances. -/

/-- Filesystem state of one RCS-layer destination: whether the destination
file exists (`dst_path.exists()`) and whether its version history exists
(`rcs_path.is_file()`). -/
structure RcsState where
  dstExists : Bool
  rcsExists : Bool
deriving DecidableEq

/-- Embeds `DirectoryPluginRegistryLayer._copy_jar`: the byte copy followed,
when the SELinux tooling is present, by the best-effort relabel. -/
def directory_copy_jar_cmds (selinux : Bool) (src_path dst_path basename : String) :
    List (List String) :=
  [["cp", src_path, dst_path]] ++
  (if selinux then [["chcon", "-t", "httpd_sys_content_t", basename]] else [])

/-- Embeds `RcsPluginRegistryLayer._copy_jar` (plugin_registry.py lines
224-239): an optional lock-for-edit checkout when both the destination and
its history exist, then the parent's byte copy, then the check-in whose
message embeds the descriptor's version and which attaches the one-time
description derived from the descriptor's name exactly when no history
exists yet.  Returns the command sequence and the state after the call. -/
def rcs_copy_jar (selinux : Bool) (src_path dst_path basename : String)
    (plugin_name : String) (plugin_version : Int) (st : RcsState) :
    List (List String) × RcsState :=
  ((if st.dstExists && st.rcsExists then [["co", "-l", basename]] else []) ++
   directory_copy_jar_cmds selinux src_path dst_path basename ++
   [["ci", "-u", "-mVersion " ++ toString plugin_version] ++
    (if !st.rcsExists then ["-t-" ++ plugin_name] else []) ++
    [basename]],
   ⟨true, true⟩)

/-! ## Descriptor parsing (`Plugin.__init__`, `Plugin._only_one`)

Embeds the descriptor parser of `turtles.py` lines 107-136.  The parsed XML
root is abstracted to its tag and its `entry` children, each child reduced
to the tag and text of its first sub-element (the key) and the text of its
second sub-element (the value). -/

/-- Entry of the parsed descriptor map: first sub-element tag and text, and
second sub-element text. -/
structure XmlEntry where
  keyTag : String
  keyText : String
  valueText : String
deriving DecidableEq

/-- Parsed XML root: its tag and its `entry` children. -/
structure XmlRoot where
  tag : String
  entries : List XmlEntry
deriving DecidableEq

/-- Embeds the root check of `Plugin.__init__` (turtles.py lines 110-113):
a root tag other than `map` raises the invalid-root format error. -/
def plugin_init_check (root : XmlRoot) : Except String Unit :=
  if root.tag = "map" then .ok ()
  else .error ("invalid root element: " ++ root.tag)

/-- Embeds `Plugin._only_one` (turtles.py lines 130-136) before the result
conversion: collect the values of entries whose key element is a `string`
with the given text; an empty collection yields `None`, more than one entry
raises, exactly one yields the value. -/
def only_one (root : XmlRoot) (key : String) : Except String (Option String) :=
  match (root.entries.filter
      (fun e => e.keyTag == "string" && e.keyText == key)).map
      (fun e => e.valueText) with
  | [] => .ok none
  | [v] => .ok (some v)
  | _ :: _ :: _ => .error ("plugin declares multiple entries for " ++ key)

/-- Embeds `Plugin.identifier` (turtles.py line 118). -/
def plugin_identifier (root : XmlRoot) : Except String (Option String) :=
  only_one root "plugin_identifier"

/-- Embeds `Plugin.parent_identifier` (turtles.py line 121). -/
def plugin_parent_identifier (root : XmlRoot) : Except String (Option String) :=
  only_one root "plugin_parent"

/-- Embeds `Plugin.version` (turtles.py line 127): the `plugin_version`
value, converted with `int`, which raises on a non-numeric value; an absent
value is returned as `None` before the conversion is ever applied. -/
def plugin_version (root : XmlRoot) : Except String (Option Int) :=
  match only_one root "plugin_version" with
  | .error e => .error e
  | .ok none => .ok none
  | .ok (some v) =>
      match v.toInt? with
      | some n => .ok (some n)
      | none => .error ("invalid literal for int: " ++ v)

/-- Embeds `Plugin.parent_version` (turtles.py line 124), like
`plugin_version` for the `plugin_parent_version` key. -/
def plugin_parent_version (root : XmlRoot) : Except String (Option Int) :=
  match only_one root "plugin_parent_version" with
  | .error e => .error e
  | .ok none => .ok none
  | .ok (some v) =>
      match v.toInt? with
      | some n => .ok (some n)
      | none => .error ("invalid literal for int: " ++ v)

/-! ## Whole-project build latch (`AntPluginSet._big_build`)

Embeds the one-shot latch of `AntPluginSet` (plugin_set.py lines 115-118 and
154-159): `_built` starts false; `_big_build` invokes `ant load-plugins`
only when `_built` is false, and sets `_built` to true only after the
invocation returns successfully — `subprocess.run(..., check=True)` raises
first on a non-zero exit, leaving the latch unset. -/

/-- Latch state of one `AntPluginSet` instance (`self._built`). -/
structure AntSetState where
  built : Bool
deriving DecidableEq

/-- Embeds one `_big_build` call.  `antSucceeds` is whether the external
`ant load-plugins` invocation would exit zero this time.  Returns the number
of invocations made (0 or 1), whether the call raised, and the new latch
state. -/
def big_build (antSucceeds : Bool) (st : AntSetState) : Nat × Bool × AntSetState :=
  if st.built then (0, false, st)
  else if antSucceeds then (1, false, ⟨true⟩)
  else (1, true, st)

/-- Total number of `ant load-plugins` invocations over a sequence of
`build_plugin` calls on one instance, each call's external-invocation
outcome given in order.  A raised call leaves the latch unset and the next
call proceeds from that state. -/
def big_build_invocations (st : AntSetState) : List Bool → Nat
  | [] => 0
  | outcome :: rest =>
      (big_build outcome st).1 +
      big_build_invocations (big_build outcome st).2.2 rest

/-! ## Lemmas about first-occurrence deduplication -/

theorem addIfAbsent_nodup {ds : List (List (List Char))} {d : List (List Char)}
    (h : ds.Nodup) : (addIfAbsent ds d).Nodup := by
  unfold addIfAbsent
  split
  · exact h
  · next hmem => simpa [List.nodup_append] using ⟨h, fun hd => hmem hd⟩

theorem length_addIfAbsent_le (ds : List (List (List Char))) (d : List (List Char)) :
    (addIfAbsent ds d).length ≤ ds.length + 1 := by
  unfold addIfAbsent
  split <;> simp

theorem le_length_addIfAbsent (ds : List (List (List Char))) (d : List (List Char)) :
    ds.length ≤ (addIfAbsent ds d).length := by
  unfold addIfAbsent
  split <;> simp

theorem appendDedup_cons (dirs : List (List (List Char))) (d : List (List Char))
    (ds : List (List (List Char))) :
    appendDedup dirs (d :: ds) = appendDedup (addIfAbsent dirs d) ds := rfl

theorem appendDedup_append (dirs xs ys : List (List (List Char))) :
    appendDedup dirs (xs ++ ys) = appendDedup (appendDedup dirs xs) ys := by
  unfold appendDedup
  exact List.foldl_append ..

theorem appendDedup_nodup {dirs : List (List (List Char))}
    (ds : List (List (List Char))) (h : dirs.Nodup) : (appendDedup dirs ds).Nodup := by
  induction ds generalizing dirs with
  | nil => exact h
  | cons d rest ih => exact ih (addIfAbsent_nodup h)

theorem length_appendDedup_le (dirs ds : List (List (List Char))) :
    (appendDedup dirs ds).length ≤ dirs.length + ds.length := by
  induction ds generalizing dirs with
  | nil => simp [appendDedup]
  | cons d rest ih =>
      calc (appendDedup dirs (d :: rest)).length
          = (appendDedup (addIfAbsent dirs d) rest).length := rfl
        _ ≤ (addIfAbsent dirs d).length + rest.length := ih _
        _ ≤ (dirs.length + 1) + rest.length :=
            Nat.add_le_add_right (length_addIfAbsent_le dirs d) _
        _ = dirs.length + (d :: rest).length := by simp; omega

theorem le_length_appendDedup (dirs ds : List (List (List Char))) :
    dirs.length ≤ (appendDedup dirs ds).length := by
  induction ds generalizing dirs with
  | nil => exact Nat.le_refl _
  | cons d rest ih =>
      exact Nat.le_trans (le_length_addIfAbsent dirs d) (ih (addIfAbsent dirs d))

theorem addAuxDirs_eq_appendDedup (dirs : List (List (List Char)))
    (auxPackages : List String) :
    addAuxDirs dirs auxPackages = appendDedup dirs (auxPackages.map auxDir) := by
  unfold addAuxDirs appendDedup
  exact (List.foldl_map auxDir addIfAbsent auxPackages dirs).symm

/-! ## Lemmas about the Ant ancestor-resolution loop -/

theorem discoveryDirs_cons (i : String) (p : PluginDesc)
    (rest : List (String × PluginDesc)) :
    discoveryDirs ((i, p) :: rest) =
      (Plugin.id_to_dir i :: p.auxPackages.map auxDir) ++ discoveryDirs rest := by
  simp [discoveryDirs]

theorem little_build_loop_chain {env : PluginEnv} {i : String}
    {links : List (String × PluginDesc)} (hchain : AncestorChain env i links) :
    ∀ fuel, links.length ≤ fuel → ∀ acc,
      little_build_loop env fuel (some i) acc =
        .ok (appendDedup acc (discoveryDirs links)) := by
  induction hchain with
  | last henv hnone =>
      intro fuel hfuel acc
      match fuel, hfuel with
      | fuel + 1, _ =>
        rw [little_build_loop, henv]
        dsimp only
        rw [hnone, discoveryDirs_cons]
        simp only [discoveryDirs, List.map_nil, List.flatten_nil, List.append_nil]
        rw [appendDedup_cons, addAuxDirs_eq_appendDedup]
        rw [little_build_loop]
  | cons henv hparent _ ih =>
      intro fuel hfuel acc
      match fuel, hfuel with
      | fuel + 1, hfuel =>
        rw [little_build_loop, henv]
        dsimp only
        rw [hparent, discoveryDirs_cons, appendDedup_append, appendDedup_cons,
          addAuxDirs_eq_appendDedup]
        exact ih fuel (by simpa using Nat.le_of_succ_le_succ hfuel) _

theorem length_discoveryDirs (links : List (String × PluginDesc)) :
    (discoveryDirs links).length = links.length + totalAuxPackages links := by
  induction links with
  | nil => simp [discoveryDirs, totalAuxPackages]
  | cons ip rest ih =>
      obtain ⟨i, p⟩ := ip
      rw [discoveryDirs_cons]
      simp only [List.length_append, List.length_cons, List.length_map, ih,
        totalAuxPackages, List.map_cons, List.sum_cons]
      omega

theorem chain_ne_nil {env : PluginEnv} {i : String} {links : List (String × PluginDesc)}
    (hchain : AncestorChain env i links) : links ≠ [] := by
  cases hchain <;> simp

theorem exampleChain_valid :
    AncestorChain exampleEnv "org.example.MyPlugin" exampleChain :=
  AncestorChain.cons (by decide) (by decide)
    (AncestorChain.last (by decide) (by decide))

/-- C1: for every plugin identifier whose ancestor chain has length N and
whose chain declares A auxiliary packages in total, the directory list
computed by `AntPluginSet._little_build` for the `-d` arguments has between
1 and N+A entries, has no duplicate entry, and lists directories in
first-discovery order: the loop's result is exactly the first-occurrence
deduplication of the raw discovery sequence that records, for each chain
member starting at the target, its resource directory and then one synthetic
directory per auxiliary package it declares, parent after parent until the
parent reference is empty. -/
theorem little_build_dirs_spec (env : PluginEnv) (plugin_id : String)
    (links : List (String × PluginDesc)) (fuel : Nat)
    (hchain : AncestorChain env plugin_id links) (hfuel : links.length ≤ fuel) :
    little_build_dirs env fuel plugin_id = .ok (dedupFirst (discoveryDirs links)) ∧
    1 ≤ (dedupFirst (discoveryDirs links)).length ∧
    (dedupFirst (discoveryDirs links)).length ≤ links.length + totalAuxPackages links ∧
    (dedupFirst (discoveryDirs links)).Nodup := by
  have hmain := little_build_loop_chain hchain fuel hfuel []
  refine ⟨hmain, ?_, ?_, ?_⟩
  · obtain ⟨l, rest, hl⟩ : ∃ l rest, links = l :: rest := by
      cases links with
      | nil => exact absurd rfl (chain_ne_nil hchain)
      | cons l rest => exact ⟨l, rest, rfl⟩
    subst hl
    obtain ⟨i, p⟩ := l
    rw [discoveryDirs_cons]
    show 1 ≤ (appendDedup [] _).length
    rw [List.cons_append, appendDedup_cons]
    have h1 : (addIfAbsent [] (Plugin.id_to_dir i)).length = 1 := by
      simp [addIfAbsent]
    calc 1 = (addIfAbsent [] (Plugin.id_to_dir i)).length := h1.symm
      _ ≤ _ := le_length_appendDedup _ _
  · calc (dedupFirst (discoveryDirs links)).length
        ≤ 0 + (discoveryDirs links).length := length_appendDedup_le [] _
      _ = links.length + totalAuxPackages links := by
          rw [Nat.zero_add, length_discoveryDirs]
  · exact appendDedup_nodup _ List.nodup_nil

/-- Witness for C1: the two-plugin environment `exampleEnv`, whose chain has
two members and one auxiliary package in total. -/
theorem little_build_dirs_spec_witness :
    little_build_dirs exampleEnv 2 "org.example.MyPlugin" =
      .ok (dedupFirst (discoveryDirs exampleChain)) ∧
    1 ≤ (dedupFirst (discoveryDirs exampleChain)).length ∧
    (dedupFirst (discoveryDirs exampleChain)).length ≤
      exampleChain.length + totalAuxPackages exampleChain ∧
    (dedupFirst (discoveryDirs exampleChain)).Nodup :=
  little_build_dirs_spec exampleEnv "org.example.MyPlugin" exampleChain 2
    exampleChain_valid (by decide)

/-- C10: the ancestor-resolution loop of `AntPluginSet._little_build`
terminates under the precondition that the chain of parent references
starting at the target identifier is finite and acyclic — expressed by the
existence of a finite `AncestorChain` list, which the code does not check;
any fuel at least the chain length is never exhausted. -/
theorem little_build_terminates (env : PluginEnv) (plugin_id : String)
    (links : List (String × PluginDesc)) (fuel : Nat)
    (hchain : AncestorChain env plugin_id links) (hfuel : links.length ≤ fuel) :
    little_build_dirs env fuel plugin_id ≠ .outOfFuel := by
  rw [little_build_dirs, little_build_loop_chain hchain fuel hfuel []]
  simp

/-- Witness for C10 at the concrete environment `exampleEnv`. -/
theorem little_build_terminates_witness :
    little_build_dirs exampleEnv 2 "org.example.MyPlugin" ≠ .outOfFuel :=
  little_build_terminates exampleEnv "org.example.MyPlugin" exampleChain 2
    exampleChain_valid (by decide)

/-! ## Orchestrator build: first match wins -/

/-- C2: for every requested identifier, `Turtles._build_one_plugin` scans
the loaded plugin sets in load order and returns the result of the first set
reporting membership; the conclusion holds for every tail `post` after the
first match, so later matching sets are never consulted; and the hard
not-found error (`none`) is raised exactly when no loaded set has the
identifier. -/
theorem build_one_plugin_first_match (buildFn : String → String → String)
    (pre : List PluginSetM) (s : PluginSetM) (post sets : List PluginSetM)
    (plugin_id : String)
    (hpre : ∀ t ∈ pre, t.hasP plugin_id = false) (hs : s.hasP plugin_id = true) :
    build_one_plugin buildFn (pre ++ s :: post) plugin_id =
      some (s.id, buildFn s.id plugin_id) ∧
    (build_one_plugin buildFn sets plugin_id = none ↔
      ∀ t ∈ sets, t.hasP plugin_id = false) := by
  constructor
  · induction pre with
    | nil =>
        rw [List.nil_append, build_one_plugin, if_pos hs]
    | cons t rest ih =>
        rw [List.cons_append, build_one_plugin,
          if_neg (by simp [hpre t (by simp)])]
        exact ih fun u hu => hpre u (List.mem_cons_of_mem t hu)
  · induction sets with
    | nil => simp [build_one_plugin]
    | cons t rest ih =>
        rw [build_one_plugin]
        by_cases ht : t.hasP plugin_id = true
        · simp [ht]
        · simp only [Bool.not_eq_true] at ht
          simp [ht, ih]

/-- Witness for C2: three concrete plugin sets, of which the second and
third report membership; the second is returned and an empty load list
raises. -/
theorem build_one_plugin_first_match_witness :
    build_one_plugin (fun set_id plugin_id => set_id ++ ":" ++ plugin_id)
        ([⟨"s0", fun _ => false⟩] ++ ⟨"s1", fun _ => true⟩ ::
          [⟨"s2", fun _ => true⟩]) "org.example.MyPlugin" =
      some ("s1", "s1" ++ ":" ++ "org.example.MyPlugin") ∧
    (build_one_plugin (fun set_id plugin_id => set_id ++ ":" ++ plugin_id)
        [] "org.example.MyPlugin" = none ↔
      ∀ t ∈ ([] : List PluginSetM), t.hasP "org.example.MyPlugin" = false) :=
  build_one_plugin_first_match (fun set_id plugin_id => set_id ++ ":" ++ plugin_id)
    [⟨"s0", fun _ => false⟩] ⟨"s1", fun _ => true⟩ [⟨"s2", fun _ => true⟩] []
    "org.example.MyPlugin" (by intro t ht; simp at ht; simp [ht]) rfl

/-! ## Deploy fan-out: error condition -/

theorem layerEntry_eq_nil_iff (deployFn : String → String → Option String)
    (r : PluginRegistryM) (layer_id : String) :
    layerEntry deployFn r layer_id = [] ↔ r.get_layer layer_id = none := by
  cases h : r.get_layer layer_id <;> simp [layerEntry, h]

theorem registryEntries_eq_nil_iff (deployFn : String → String → Option String)
    (r : PluginRegistryM) (plugin_id : String) (layer_ids : List String) :
    registryEntries deployFn r plugin_id layer_ids = [] ↔
      (r.has_plugin plugin_id = true →
        ∀ layer_id ∈ layer_ids, r.get_layer layer_id = none) := by
  unfold registryEntries
  by_cases h : r.has_plugin plugin_id = true
  · simp [h, List.flatten_eq_nil_iff, layerEntry_eq_nil_iff]
  · simp [h]

theorem deploy_inner_foldl (deployFn : String → String → Option String)
    (r : PluginRegistryM) (layer_ids : List String) (acc : List DeployEntry) :
    layer_ids.foldl (fun acc2 layer_id =>
        match r.get_layer layer_id with
        | none => acc2
        | some layer => acc2 ++ [⟨r.id, layer.id, deployFn r.id layer.id⟩]) acc =
      acc ++ (layer_ids.map (layerEntry deployFn r)).flatten := by
  induction layer_ids generalizing acc with
  | nil => simp
  | cons layer_id rest ih =>
      rw [List.foldl_cons, List.map_cons, List.flatten_cons]
      cases h : r.get_layer layer_id with
      | none => rw [ih]; simp [layerEntry, h]
      | some layer => rw [ih]; simp [layerEntry, h]

theorem registryEntries_pos (deployFn : String → String → Option String)
    (r : PluginRegistryM) (plugin_id : String) (layer_ids : List String)
    (h : r.has_plugin plugin_id = true) :
    registryEntries deployFn r plugin_id layer_ids =
      (layer_ids.map (layerEntry deployFn r)).flatten := by
  rw [registryEntries, if_pos h]

theorem registryEntries_neg (deployFn : String → String → Option String)
    (r : PluginRegistryM) (plugin_id : String) (layer_ids : List String)
    (h : ¬r.has_plugin plugin_id = true) :
    registryEntries deployFn r plugin_id layer_ids = [] := by
  rw [registryEntries, if_neg h]

theorem deploy_outer_foldl (deployFn : String → String → Option String)
    (registries : List PluginRegistryM) (plugin_id : String)
    (layer_ids : List String) (acc : List DeployEntry) :
    registries.foldl (fun acc r =>
        if r.has_plugin plugin_id then
          layer_ids.foldl (fun acc2 layer_id =>
            match r.get_layer layer_id with
            | none => acc2
            | some layer => acc2 ++ [⟨r.id, layer.id, deployFn r.id layer.id⟩]) acc
        else acc) acc =
      acc ++ (registries.map
        (fun r => registryEntries deployFn r plugin_id layer_ids)).flatten := by
  induction registries generalizing acc with
  | nil => simp
  | cons r rest ih =>
      rw [List.foldl_cons, List.map_cons, List.flatten_cons]
      by_cases h : r.has_plugin plugin_id = true
      · rw [if_pos h, deploy_inner_foldl, ih,
          registryEntries_pos deployFn r plugin_id layer_ids h, List.append_assoc]
      · rw [if_neg h, ih,
          registryEntries_neg deployFn r plugin_id layer_ids h, List.nil_append]

/-- C3 counterexample: one loaded registry declares the identifier `P` but
defines none of the requested layers (`staging` requested, only `testing`
defined); `Turtles._deploy_one_plugin` raises the hard error (`none`)
anyway, refuting that the error is raised only when the identifier is
declared in no loaded registry, and refuting that such layers are skipped
without an error. -/
theorem deploy_one_plugin_counterexample :
    PluginRegistryM.has_plugin ⟨"r", ["P"], [⟨"testing"⟩]⟩ "P" = true ∧
    deploy_one_plugin (fun _ _ => some "deployed")
      [⟨"r", ["P"], [⟨"testing"⟩]⟩] "P" ["staging"] = none := by
  constructor
  · decide
  · decide

/-- C3 amended: `Turtles._deploy_one_plugin` raises the hard error if and
only if no loaded registry both declares the identifier and defines at least
one of the requested layers; a registry's undefined requested layers
contribute no entry (they are skipped), but when every registry-layer
combination is skipped this way the same hard error is raised as when the
identifier is undeclared everywhere. -/
theorem deploy_one_plugin_error_iff (deployFn : String → String → Option String)
    (registries : List PluginRegistryM) (plugin_id : String)
    (layer_ids : List String) :
    deploy_one_plugin deployFn registries plugin_id layer_ids = none ↔
      ∀ r ∈ registries, r.has_plugin plugin_id = true →
        ∀ layer_id ∈ layer_ids, r.get_layer layer_id = none := by
  rw [deploy_one_plugin]
  simp only [deploy_outer_foldl, List.nil_append]
  by_cases h : ((registries.map
      (fun r => registryEntries deployFn r plugin_id layer_ids)).flatten).length = 0
  · rw [if_pos h]
    simp only [List.length_eq_zero, List.flatten_eq_nil_iff, List.mem_map,
      forall_exists_index, and_imp, forall_apply_eq_imp_iff₂] at h
    simp only [true_iff]
    intro r hr
    exact (registryEntries_eq_nil_iff deployFn r plugin_id layer_ids).mp (h r hr)
  · rw [if_neg h]
    simp only [List.length_eq_zero, List.flatten_eq_nil_iff, List.mem_map,
      forall_exists_index, and_imp, forall_apply_eq_imp_iff₂] at h
    constructor
    · intro hsome
      simp at hsome
    · intro hall
      exact absurd (fun r hr =>
        (registryEntries_eq_nil_iff deployFn r plugin_id layer_ids).mpr (hall r hr)) h

/-! ## Identifier and resource path conversion: round trip -/

theorem pyReplaceChar_append (a b : Char) (s t : List Char) :
    pyReplaceChar a b (s ++ t) = pyReplaceChar a b s ++ pyReplaceChar a b t := by
  unfold pyReplaceChar
  exact List.map_append ..

theorem pyReplaceChar_roundtrip (a b : Char) (s : List Char) (h : b ∉ s) :
    pyReplaceChar b a (pyReplaceChar a b s) = s := by
  unfold pyReplaceChar
  rw [List.map_map]
  have hcong : ∀ c ∈ s,
      ((fun c => if c = b then a else c) ∘ fun c => if c = a then b else c) c = id c := by
    intro c hc
    by_cases hca : c = a
    · subst hca
      simp
    · have hcb : c ≠ b := fun hh => h (hh ▸ hc)
      simp [hca, hcb]
  rw [List.map_congr_left hcong, List.map_id]

theorem xml_suffix_unchanged : pyReplaceChar '/' '.' ".xml".data = ".xml".data := by
  decide

/-- C4: for every syntactically valid dotted plugin identifier — one that
contains no path separator — `Plugin.id_to_file` followed by
`Plugin.file_to_id` reproduces the identifier exactly; conversely, for every
resource path of the produced form — dot-free components joined by the
separator plus the fixed `.xml` suffix — `Plugin.file_to_id` followed by
`Plugin.id_to_file` reproduces the path, so the two conversions are mutually
inverse. -/
theorem plugin_id_file_roundtrip (plugid q : List Char)
    (hid : '/' ∉ plugid) (hq : '.' ∉ q) :
    Plugin.file_to_id (Plugin.id_to_file plugid) = plugid ∧
    Plugin.id_to_file (Plugin.file_to_id (q ++ ".xml".data)) = q ++ ".xml".data := by
  have h4 : (".xml".data).length = 4 := rfl
  constructor
  · rw [Plugin.id_to_file, Plugin.file_to_id, pyReplaceChar_append,
      pyReplaceChar_roundtrip '.' '/' plugid hid, xml_suffix_unchanged]
    have hlen : (plugid ++ ".xml".data).length - 4 = plugid.length := by
      rw [List.length_append, h4]
      omega
    rw [hlen]
    exact List.take_left ..
  · rw [Plugin.file_to_id, pyReplaceChar_append, xml_suffix_unchanged]
    have hlen : (pyReplaceChar '/' '.' q ++ ".xml".data).length - 4 =
        (pyReplaceChar '/' '.' q).length := by
      rw [List.length_append, h4]
      omega
    rw [hlen, List.take_left, Plugin.id_to_file,
      pyReplaceChar_roundtrip '/' '.' q hq]

/-- Witness for C4 at a concrete identifier and its resource path. -/
theorem plugin_id_file_roundtrip_witness :
    Plugin.file_to_id (Plugin.id_to_file "org.lockss.plugin.MyPlugin".data) =
      "org.lockss.plugin.MyPlugin".data ∧
    Plugin.id_to_file
        (Plugin.file_to_id ("org/lockss/plugin/MyPlugin".data ++ ".xml".data)) =
      "org/lockss/plugin/MyPlugin".data ++ ".xml".data :=
  plugin_id_file_roundtrip "org.lockss.plugin.MyPlugin".data
    "org/lockss/plugin/MyPlugin".data (by decide) (by decide)

/-! ## Credential redaction -/

theorem ant_sanitize_go_neg (i : Nat) (prev c : String) (rest : List String)
    (h : ¬(1 < i ∧ prev = "--password")) :
    ant_sanitize_go i prev (c :: rest) = c :: ant_sanitize_go (i + 1) c rest := by
  rw [ant_sanitize_go, if_neg h]

theorem ant_sanitize_go_pos (i : Nat) (prev c : String) (rest : List String)
    (h : 1 < i ∧ prev = "--password") :
    ant_sanitize_go i prev (c :: rest) =
      "<password>" :: ant_sanitize_go (i + 1) "<password>" rest := by
  rw [ant_sanitize_go, if_pos h]

theorem maven_startsWith_password (p : String) :
    pyStartsWith ("-Dkeystore.password=" ++ p) "-Dkeystore.password=" = true := by
  unfold pyStartsWith
  rw [decide_eq_true_eq, String.data_append]
  exact List.take_left ..

theorem maven_startsWith_file (k : String) :
    pyStartsWith ("-Dkeystore.file=" ++ k) "-Dkeystore.password=" = false := by
  unfold pyStartsWith
  rw [decide_eq_false_iff_not, String.data_append]
  intro hcontra
  have hplen : ("-Dkeystore.password=".data).length = 20 := rfl
  rw [hplen] at hcontra
  have h12 := congrArg (List.take 12) hcontra
  rw [List.take_take, show min 12 20 = 12 from rfl,
    List.take_append_of_le_length (by decide)] at h12
  exact absurd h12 (by decide)

theorem maven_startsWith_alias (a : String) :
    pyStartsWith ("-Dkeystore.alias=" ++ a) "-Dkeystore.password=" = false := by
  unfold pyStartsWith
  rw [decide_eq_false_iff_not, String.data_append]
  intro hcontra
  have hplen : ("-Dkeystore.password=".data).length = 20 := rfl
  rw [hplen] at hcontra
  have h12 := congrArg (List.take 12) hcontra
  rw [List.take_take, show min 12 20 = 12 from rfl,
    List.take_append_of_le_length (by decide)] at h12
  exact absurd h12 (by decide)

/-- C5 counterexample: with the password value `--jar` — equal to one of the
fixed flags — the sanitized command reported by `AntPluginSet._sanitize`
still contains the supplied password value, refuting that the reported
command line never contains the password for any password value.  The slot
after `--password` is redacted, but the collision with a non-secret argument
keeps the value present. -/
theorem ant_sanitize_counterexample :
    "--jar" ∈ ant_sanitize
      (signplugin_cmd "plugins/jars/X.jar" "myalias" "/etc/keystore"
        (some "--jar")) := by
  decide

/-- C5 amended: both sanitizers replace the argument in the password slot by
the placeholder, and only that slot: the Ant sanitizer maps the `signplugin`
command with the password to the same command with `<password>` (provided no
non-secret argument equals the literal `--password`, which would shift the
redaction), and the Maven sanitizer does likewise for the `mvn package`
command; consequently the reported command no longer contains the password
value unless that value coincides with one of the non-secret arguments. -/
theorem sanitize_redacts_password_slot
    (jar_path keystore_alias keystore_path keystore_password : String)
    (h1 : jar_path ≠ "--password") (h2 : keystore_alias ≠ "--password")
    (h3 : keystore_path ≠ "--password") :
    ant_sanitize (signplugin_cmd jar_path keystore_alias keystore_path
        (some keystore_password)) =
      signplugin_cmd jar_path keystore_alias keystore_path (some "<password>") ∧
    maven_sanitize (maven_build_cmd keystore_path keystore_alias
        keystore_password) =
      maven_build_cmd keystore_path keystore_alias "<password>" ∧
    (keystore_password ∉ ["test/scripts/signplugin", "--jar", jar_path,
        "--alias", keystore_alias, "--keystore", keystore_path, "--password",
        "<password>"] →
      keystore_password ∉ ant_sanitize (signplugin_cmd jar_path keystore_alias
        keystore_path (some keystore_password))) ∧
    (keystore_password ∉ ["mvn", "package",
        "-Dkeystore.file=" ++ keystore_path,
        "-Dkeystore.alias=" ++ keystore_alias,
        "-Dkeystore.password=" ++ "<password>"] →
      keystore_password ∉ maven_sanitize (maven_build_cmd keystore_path
        keystore_alias keystore_password)) := by
  have hant : ant_sanitize (signplugin_cmd jar_path keystore_alias keystore_path
      (some keystore_password)) =
      signplugin_cmd jar_path keystore_alias keystore_path (some "<password>") := by
    simp only [signplugin_cmd, List.cons_append, List.nil_append]
    rw [ant_sanitize,
      ant_sanitize_go_neg _ _ _ _ (by decide),
      ant_sanitize_go_neg _ _ _ _ (by decide),
      ant_sanitize_go_neg _ _ _ _ (by decide),
      ant_sanitize_go_neg _ _ _ _ (fun hc => h1 hc.2),
      ant_sanitize_go_neg _ _ _ _ (by decide),
      ant_sanitize_go_neg _ _ _ _ (fun hc => h2 hc.2),
      ant_sanitize_go_neg _ _ _ _ (by decide),
      ant_sanitize_go_neg _ _ _ _ (fun hc => h3 hc.2),
      ant_sanitize_go_pos _ _ _ _ (by decide),
      ant_sanitize_go]
  have hmvn : maven_sanitize (maven_build_cmd keystore_path keystore_alias
      keystore_password) =
      maven_build_cmd keystore_path keystore_alias "<password>" := by
    simp only [maven_sanitize, maven_build_cmd, List.map_cons, List.map_nil,
      maven_startsWith_file, maven_startsWith_alias, maven_startsWith_password,
      (show pyStartsWith "mvn" "-Dkeystore.password=" = false from by decide),
      (show pyStartsWith "package" "-Dkeystore.password=" = false from by decide),
      Bool.false_eq_true, if_false, if_true,
      (show ("-Dkeystore.password=<password>" : String) =
        "-Dkeystore.password=" ++ "<password>" from rfl)]
  refine ⟨hant, hmvn, ?_, ?_⟩
  · intro hnot hmem
    apply hnot
    rw [hant] at hmem
    simpa [signplugin_cmd] using hmem
  · intro hnot hmem
    apply hnot
    rw [hmvn] at hmem
    simpa [maven_build_cmd] using hmem

/-- Witness for C5 amended at concrete arguments. -/
theorem sanitize_redacts_password_slot_witness :
    ant_sanitize (signplugin_cmd "plugins/jars/X.jar" "myalias" "/etc/ks"
        (some "s3cret")) =
      signplugin_cmd "plugins/jars/X.jar" "myalias" "/etc/ks"
        (some "<password>") ∧
    maven_sanitize (maven_build_cmd "/etc/ks" "myalias" "s3cret") =
      maven_build_cmd "/etc/ks" "myalias" "<password>" ∧
    ("s3cret" ∉ ["test/scripts/signplugin", "--jar", "plugins/jars/X.jar",
        "--alias", "myalias", "--keystore", "/etc/ks", "--password",
        "<password>"] →
      "s3cret" ∉ ant_sanitize (signplugin_cmd "plugins/jars/X.jar" "myalias"
        "/etc/ks" (some "s3cret"))) ∧
    ("s3cret" ∉ ["mvn", "package",
        "-Dkeystore.file=" ++ "/etc/ks",
        "-Dkeystore.alias=" ++ "myalias",
        "-Dkeystore.password=" ++ "<password>"] →
      "s3cret" ∉ maven_sanitize (maven_build_cmd "/etc/ks" "myalias"
        "s3cret")) :=
  sanitize_redacts_password_slot "plugins/jars/X.jar" "myalias" "/etc/ks"
    "s3cret" (by decide) (by decide) (by decide)

/-! ## Destination file naming -/

/-- C6 (evaluation at the failing input): the naming convention mapping of
`RcsPluginRegistryLayer._get_dstfile` in the embedded source is two-way, not
three-way: `underscore` is not recognized and raises the unknown-convention
configuration error instead of producing the underscore-joined filename that
the claim (and the repository's own unit test `test_get_dstfile`) expects;
`abbreviated` and `identifier`/unset behave as claimed. -/
theorem rcs_get_dstfile_underscore_rejected :
    rcs_get_dstfile (some "underscore") "org.myproject.plugin.MyPlugin" =
      .error "unknown file naming convention in layout options" ∧
    rcs_get_dstfile (some "abbreviated") "org.myproject.plugin.MyPlugin" =
      .ok "MyPlugin.jar" ∧
    rcs_get_dstfile (some "identifier") "org.myproject.plugin.MyPlugin" =
      .ok "org.myproject.plugin.MyPlugin.jar" ∧
    rcs_get_dstfile none "org.myproject.plugin.MyPlugin" =
      .ok "org.myproject.plugin.MyPlugin.jar" ∧
    directory_get_dstfile "org.myproject.plugin.MyPlugin" =
      "org.myproject.plugin.MyPlugin.jar" :=
  ⟨rfl, rfl, rfl, rfl, rfl⟩

/-! ## Revision-controlled deployment -/

/-- C7: on a destination with no version history, the check-in command of
`RcsPluginRegistryLayer._copy_jar` attaches the one-time description derived
from the descriptor's name and embeds the descriptor's version in the commit
message, and no checkout precedes the copy; on the state left by that first
call (history now present), a second call does not attach the description
again, still embeds the version, and its first command — before the byte
copy — is the lock-for-edit checkout. -/
theorem rcs_copy_jar_description_once (selinux : Bool)
    (src_path dst_path basename plugin_name : String) (plugin_version : Int)
    (dstExists0 : Bool) :
    (rcs_copy_jar selinux src_path dst_path basename plugin_name plugin_version
        ⟨dstExists0, false⟩).1 =
      directory_copy_jar_cmds selinux src_path dst_path basename ++
      [["ci", "-u", "-mVersion " ++ toString plugin_version,
        "-t-" ++ plugin_name, basename]] ∧
    (rcs_copy_jar selinux src_path dst_path basename plugin_name plugin_version
        ⟨dstExists0, false⟩).2 = ⟨true, true⟩ ∧
    (rcs_copy_jar selinux src_path dst_path basename plugin_name plugin_version
        (rcs_copy_jar selinux src_path dst_path basename plugin_name
          plugin_version ⟨dstExists0, false⟩).2).1 =
      ["co", "-l", basename] ::
      (directory_copy_jar_cmds selinux src_path dst_path basename ++
       [["ci", "-u", "-mVersion " ++ toString plugin_version, basename]]) := by
  refine ⟨?_, rfl, ?_⟩
  · simp [rcs_copy_jar]
  · simp [rcs_copy_jar]

/-! ## Descriptor parsing: absent fields -/

/-- C8 counterexample: on a well-formed `map` root with no entries at all,
the embedded parser accepts the root, and both the identifier and the
version accessors return the explicit empty value rather than raising a
missing-field error; the format error does fire on a non-`map` root. -/
theorem plugin_parse_counterexample :
    plugin_init_check ⟨"map", []⟩ = .ok () ∧
    plugin_identifier ⟨"map", []⟩ = .ok none ∧
    plugin_version ⟨"map", []⟩ = .ok none ∧
    plugin_parent_identifier ⟨"map", []⟩ = .ok none ∧
    plugin_parent_version ⟨"map", []⟩ = .ok none ∧
    plugin_init_check ⟨"plugin", []⟩ =
      .error ("invalid root element: " ++ "plugin") :=
  ⟨rfl, rfl, rfl, rfl, rfl, rfl⟩

/-- C8 amended: parsing fails with the format error exactly when the root
container element is not `map`; any key with no matching entry — mandatory
identifier and version included — yields the explicit empty value `None`,
never a missing-field error. -/
theorem plugin_parse_missing_amended (root : XmlRoot) (key : String)
    (habsent : ∀ e ∈ root.entries,
      (e.keyTag == "string" && e.keyText == key) = false) :
    (root.tag ≠ "map" →
      plugin_init_check root = .error ("invalid root element: " ++ root.tag)) ∧
    (root.tag = "map" → plugin_init_check root = .ok ()) ∧
    only_one root key = .ok none := by
  refine ⟨?_, ?_, ?_⟩
  · intro h
    rw [plugin_init_check, if_neg h]
  · intro h
    rw [plugin_init_check, if_pos h]
  · rw [only_one]
    have hfil : root.entries.filter
        (fun e => e.keyTag == "string" && e.keyText == key) = [] :=
      List.filter_eq_nil_iff.mpr (fun e he => by simp [habsent e he])
    rw [hfil]
    rfl

/-- Witness for C8 amended: a root with the wrong tag and one unrelated
entry, queried for the identifier key. -/
theorem plugin_parse_missing_amended_witness :
    ((⟨"list", [⟨"string", "plugin_name", "X"⟩]⟩ : XmlRoot).tag ≠ "map" →
      plugin_init_check ⟨"list", [⟨"string", "plugin_name", "X"⟩]⟩ =
        .error ("invalid root element: " ++
          (⟨"list", [⟨"string", "plugin_name", "X"⟩]⟩ : XmlRoot).tag)) ∧
    ((⟨"list", [⟨"string", "plugin_name", "X"⟩]⟩ : XmlRoot).tag = "map" →
      plugin_init_check ⟨"list", [⟨"string", "plugin_name", "X"⟩]⟩ = .ok ()) ∧
    only_one ⟨"list", [⟨"string", "plugin_name", "X"⟩]⟩ "plugin_identifier" =
      .ok none :=
  plugin_parse_missing_amended ⟨"list", [⟨"string", "plugin_name", "X"⟩]⟩
    "plugin_identifier" (by decide)

/-! ## Whole-project build latch -/

theorem big_build_invocations_built (outcomes : List Bool) :
    big_build_invocations ⟨true⟩ outcomes = 0 := by
  induction outcomes with
  | nil => rfl
  | cons o rest ih => simpa [big_build_invocations, big_build] using ih

/-- C9 counterexample: two `build_plugin` calls whose external `ant
load-plugins` invocation fails both times invoke the whole-project build
twice — the latch is only set after a successful invocation — refuting that
the external whole-project build command is invoked at most once after any
number of calls. -/
theorem big_build_counterexample :
    big_build_invocations ⟨false⟩ [false, false] = 2 ∧
    ¬big_build_invocations ⟨false⟩ [false, false] ≤ 1 := by
  exact ⟨by decide, by decide⟩

/-- C9 amended: when no whole-project invocation fails, at most one
invocation is made over any number of `build_plugin` calls on the same
instance; and on an instance whose preparation completed (latch set), any
further sequence of calls makes no invocation at all — in particular a
second call after a completed first call does not re-invoke the build. -/
theorem big_build_latch_amended (outcomes : List Bool)
    (hall : ∀ o ∈ outcomes, o = true) :
    big_build_invocations ⟨false⟩ outcomes ≤ 1 ∧
    ∀ later : List Bool, big_build_invocations ⟨true⟩ later = 0 := by
  constructor
  · cases outcomes with
    | nil => decide
    | cons o rest =>
        have ho : o = true := hall o (by simp)
        subst ho
        simp [big_build_invocations, big_build, big_build_invocations_built]
  · exact big_build_invocations_built

/-- Witness for C9 amended: three successful calls make one invocation; a
latched instance makes none. -/
theorem big_build_latch_amended_witness :
    big_build_invocations ⟨false⟩ [true, true, true] ≤ 1 ∧
    big_build_invocations ⟨true⟩ [false, false] = 0 :=
  ⟨(big_build_latch_amended [true, true, true] (by decide)).1,
   (big_build_latch_amended [true, true, true] (by decide)).2 [false, false]⟩

end Turtles
